import Mathlib

/-!
Shallow embedding of the FSL-to-NIDM result-directory parsing engine
(`nidmfsl/fsl_exporter/fsl_exporter.py`) and proofs about it.

Python `int`/`str` values are modelled by `Int`/`String`; Python floats
read from the configuration text are modelled by `ℚ` (only order
comparisons and structural presence matter here); Python exceptions are
modelled by `Except String` or by `Option` where only definedness is at
stake; Python dicts (insertion ordered) are modelled by association
lists.
-/

namespace FslNidm

/-- A Python runtime value, as far as the ported fragments need it:
either an `int` or a `str`.  Used to model Python's cross-type `==`. -/
inductive PyVal where
  | pyint (n : Int)
  | pystr (s : String)
deriving DecidableEq

/-- Python `==` between values of possibly different types: two `int`s
or two `str`s compare by value, an `int` never equals a `str`. -/
def py_eq : PyVal → PyVal → Bool
  | PyVal.pyint a, PyVal.pyint b => a == b
  | PyVal.pystr a, PyVal.pystr b => a == b
  | _, _ => false

/-- A parameter-estimate map, reduced to what `_find_contrasts` reads
from it: `pe_num` is the string of digits obtained from the file name by
`re.compile('pe\d+').search(pe.file).group().replace('pe', '')`
(a decimal string, e.g. `"1"` for `pe1.nii.gz`), and `id` is the map's
identifier. -/
structure ParameterEstimateMap where
  pe_num : String
  id : Nat
deriving DecidableEq

/-- The pe-id selection loop of `_find_contrasts`
(fsl_exporter.py lines 223-243): walk the parsed weight vector with a
1-based counter `pe_index` (a Python `int`); whenever the weight equals
1, append the id of every parameter-estimate map whose extracted number
satisfies `pe_num == pe_index` — note that in the source `pe_num` is a
`str` while `pe_index` is an `int`, so this is Python's cross-type
equality, modelled by `py_eq`. -/
def pe_ids_loop (pes : List ParameterEstimateMap) :
    List Int → Int → List Nat
  | [], _ => []
  | w :: ws, pe_index =>
      (if w == 1 then
        pes.filterMap (fun pe =>
          if py_eq (PyVal.pystr pe.pe_num) (PyVal.pyint pe_index) then
            some pe.id
          else none)
      else []) ++ pe_ids_loop pes ws (pe_index + 1)

/-- `pe_ids` as computed by `_find_contrasts` for one contrast: the
selection loop started at `pe_index = 1`. -/
def find_pe_ids (weights : List Int) (pes : List ParameterEstimateMap) :
    List Nat :=
  pe_ids_loop pes weights 1

/-- The pe-id selection as the specification words it: the ids of the
parameter-estimate maps whose 1-based position in the weight vector
carries a weight literally equal to 1 (a map sits at position `i` when
its extracted number string is the decimal rendering of `i`).  This
definition follows the spec's words, for comparison with `find_pe_ids`,
which is ported from the source. -/
def spec_pe_ids_loop (pes : List ParameterEstimateMap) :
    List Int → Nat → List Nat
  | [], _ => []
  | w :: ws, pos =>
      (if w == 1 then
        pes.filterMap (fun pe =>
          if pe.pe_num == toString pos then some pe.id else none)
      else []) ++ spec_pe_ids_loop pes ws (pos + 1)

/-- Spec-side pe-id selection started at position 1. -/
def spec_pe_ids (weights : List Int) (pes : List ParameterEstimateMap) :
    List Nat :=
  spec_pe_ids_loop pes weights 1

/-- Four parameter-estimate maps `pe1.nii.gz` .. `pe4.nii.gz` with ids
101..104, used as a concrete regression input. -/
def pes_example : List ParameterEstimateMap :=
  [⟨"1", 101⟩, ⟨"2", 102⟩, ⟨"3", 103⟩, ⟨"4", 104⟩]

/-- The `HeightThreshold(stat_threshold, p_corr_threshold,
p_uncorr_threshold)` constructor arguments of `_find_inferences`: each
field is `None` (`none`) or a number. -/
structure HeightThreshold where
  stat_threshold : Option ℚ
  p_corr_threshold : Option ℚ
  p_uncorr_threshold : Option ℚ
deriving DecidableEq

/-- The thresholding-relevant slice of the inference record built by
`_find_inferences`: the height threshold, the extent-threshold
probability, and whether the cluster list, the peak-definition criteria
and the cluster-definition criteria are present (not `None`). -/
structure InferenceThresholding where
  height : HeightThreshold
  extent_p_corr : Option ℚ
  clusters_present : Bool
  peak_criteria_present : Bool
  clus_criteria_present : Bool
deriving DecidableEq

/-- The threshold branch selection of `_find_inferences`
(fsl_exporter.py lines 359-401): `thresh_type` is the integer parsed
from `set fmri(thresh)`, `prob_thresh` from `set fmri(prob_thresh)` and
`z_thresh` from `set fmri(z_thresh)`.  The source sets
`voxel_uncorr = (thresh_type == 1)`, `voxel_corr = (thresh_type == 2)`,
`cluster_thresh = (thresh_type == 3)`, then assigns the four optional
fields by `if voxel_uncorr / elif voxel_corr / else`, and materialises
clusters and peak/cluster criteria only under `if cluster_thresh`.
There is no error branch: any other code (e.g. 0, "no thresholding")
falls through to the final `else`. -/
def build_thresholding (thresh_type : Int) (prob_thresh z_thresh : ℚ) :
    InferenceThresholding :=
  let voxel_uncorr := thresh_type == 1
  let voxel_corr := thresh_type == 2
  let cluster_thresh := thresh_type == 3
  if voxel_uncorr then
    { height := ⟨none, none, some prob_thresh⟩
      extent_p_corr := none
      clusters_present := cluster_thresh
      peak_criteria_present := cluster_thresh
      clus_criteria_present := cluster_thresh }
  else if voxel_corr then
    { height := ⟨none, some prob_thresh, none⟩
      extent_p_corr := none
      clusters_present := cluster_thresh
      peak_criteria_present := cluster_thresh
      clus_criteria_present := cluster_thresh }
  else
    { height := ⟨some z_thresh, none, none⟩
      extent_p_corr := some prob_thresh
      clusters_present := cluster_thresh
      peak_criteria_present := cluster_thresh
      clus_criteria_present := cluster_thresh }

/-- `_search_in_fsf(regexp, return_not_found=False)`
(fsl_exporter.py lines 710-721), parameterised by the outcome of
`re.search` on the design text: `info_found` is `some s` when the
pattern matched with captured group `s`, `none` otherwise.  The source
runs `if not info_found and return_not_found: info = None else:
info = info_found.group('info')`; in the `else` branch a `None` match
raises `AttributeError` (`NoneType` has no attribute `group`), modelled
as an `Except.error`. -/
def search_in_fsf (info_found : Option String)
    (return_not_found : Bool) : Except String (Option String) :=
  if info_found.isNone && return_not_found then
    Except.ok none
  else
    match info_found with
    | none => Except.error "AttributeError"
    | some s => Except.ok (some s)

/-- Python `dict.setdefault(key, list()).append(v)`, on an
insertion-ordered association list from keys to lists: when the key is
present, append `v` to its list in place; otherwise add a new entry
`(key, [v])` at the end. -/
def setdefault_append {κ α : Type} [BEq κ]
    (d : List (κ × List α)) (key : κ) (v : α) : List (κ × List α) :=
  if d.any (fun kv => kv.1 == key) then
    d.map (fun kv => if kv.1 == key then (kv.1, kv.2 ++ [v]) else kv)
  else
    d ++ [(key, [v])]

/-- Python `d[key]` lookup on the association-list dict model: `some`
the stored list, or `none` for a `KeyError`. -/
def dict_lookup {κ α : Type} [BEq κ]
    (d : List (κ × List α)) (key : κ) : Option (List α) :=
  (d.find? (fun kv => kv.1 == key)).map (fun kv => kv.2)

/-- One excursion-set file of an analysis directory, reduced to what
the accumulation logic of `_find_contrasts` needs: the pe-id tuple that
forms the second key component, and an identifier standing for the
`Contrast` object built from the file. -/
structure ConEntry where
  peIds : List Nat
  con : Nat
deriving DecidableEq

/-- One analysis directory as `_find_contrasts` sees it: the identifier
of its model-parameters-estimation activity (`mf_id`) and its detected
excursion-set files in glob order. -/
structure AnalysisUnit where
  mf_id : Nat
  excSets : List ConEntry
deriving DecidableEq

/-- The per-directory body of the inner loop of `_find_contrasts`
(fsl_exporter.py lines 179-287): `contrasts = dict()` then, for each
excursion-set file, `contrasts.setdefault((mf_id, pe_ids), list())
.append(con)`.  `mf_id` comes from the OUTER loop's directory. -/
def build_unit_contrasts (mfId : Nat) (entries : List ConEntry) :
    List ((Nat × List Nat) × List Nat) :=
  entries.foldl (fun d e => setdefault_append d (mfId, e.peIds) e.con) []

/-- `_find_contrasts` (fsl_exporter.py lines 163-289), at the level of
its accumulation structure: an outer loop over `self.analysis_dirs`
binds `mf_id`; a nested inner loop over the same `self.analysis_dirs`
re-initialises `contrasts = dict()` for each inner directory and fills
it from that directory's excursion sets; after both loops, the LAST
value of `contrasts` is returned.  With an empty directory list the
final `return contrasts` reads an unassigned name (`NameError`),
modelled by `none`. -/
def find_contrasts (dirs : List AnalysisUnit) :
    Option (List ((Nat × List Nat) × List Nat)) :=
  dirs.foldl
    (fun contrasts outerDir =>
      dirs.foldl
        (fun _ innerDir =>
          some (build_unit_contrasts outerDir.mf_id innerDir.excSets))
        contrasts)
    none

/-- Two second-level analysis units, each with one excursion set, used
as a concrete input for the accumulation behaviour. -/
def unit_a : AnalysisUnit := ⟨1, [⟨[11], 101⟩]⟩

/-- Second concrete analysis unit. -/
def unit_b : AnalysisUnit := ⟨2, [⟨[22], 202⟩]⟩

/-- The contrast-lookup loop of `_find_inferences`
(fsl_exporter.py lines 325-336), over the flattened list of known
contrasts: each contrast contributes the contrast number extracted from
its contrast-map file name (`cope<N>.nii.gz` with the affixes stripped,
a decimal string) paired with its estimation activity's identifier.
`con_id` starts as `None` and is overwritten on every match. -/
def find_con_id (contrasts : List (String × Nat)) (stat_num : String) :
    Option Nat :=
  contrasts.foldl
    (fun con_id c => if c.1 == stat_num then some c.2 else con_id) none

/-- The `assert con_id is not None` that follows the lookup: a `None`
result is a fatal `AssertionError` and no inference record is built for
the excursion set. -/
def resolve_con_id (contrasts : List (String × Nat))
    (stat_num : String) : Except String Nat :=
  match find_con_id contrasts stat_num with
  | none => Except.error "AssertionError"
  | some cid => Except.ok cid

/-- The peak-index state machine common to the three peak loops of
`_get_clusters_peaks` (fsl_exporter.py lines 914-984), applied to the
cluster-id column of the peak table: `prev_cluster` starts at `-1`;
for each row, `if not cluster_id == prev_cluster: peakIndex = 1`, then
the row's peak record is built from `peakIndex` (if `peakIndex` was
never assigned this is a fatal `NameError`, modelled by `none`), then
`prev_cluster = cluster_id` and `peakIndex = peakIndex + 1`.  Returns
the list of assigned peak indices in row order. -/
def peak_index_loop : List Int → Int → Option Nat → Option (List Nat)
  | [], _, _ => some []
  | cid :: rest, prev_cluster, peakIndex =>
      let pI := if cid ≠ prev_cluster then some 1 else peakIndex
      match pI with
      | none => none
      | some k =>
          match peak_index_loop rest cid (some (k + 1)) with
          | none => none
          | some out => some (k :: out)

/-- Peak indices assigned by `_get_clusters_peaks` to a peak table whose
cluster-id column is `ids`: the loop started with `prev_cluster = -1`
and `peakIndex` unassigned. -/
def assign_peak_indices (ids : List Int) : Option (List Nat) :=
  peak_index_loop ids (-1) none

/-- Positional peak indexing as the specification words it: rows are
scanned in table order; the index is set to 1 whenever the cluster-id
column changes value from the previous row and incremented by 1
otherwise; the first row gets index 1.  This definition follows the
spec's words, for comparison with `assign_peak_indices`, which is
ported from the source. -/
def spec_index_go : List Int → Int → Nat → List Nat
  | [], _, _ => []
  | cid :: rest, prev, k =>
      let k2 := if cid ≠ prev then 1 else k + 1
      k2 :: spec_index_go rest cid k2

/-- Spec-side positional peak indexing over a whole cluster-id column. -/
def spec_peak_indices : List Int → List Nat
  | [] => []
  | cid :: rest => 1 :: spec_index_go rest cid 1

/-- The peak grouping built by the peak loops of `_get_clusters_peaks`:
each peak row (cluster id paired with the built peak record, here an
opaque payload) is inserted by `peaks[cluster_id].append(peak)` when the
key exists and `peaks[cluster_id] = list([peak])` otherwise — exactly
`setdefault_append` on the dict model. -/
def group_peaks {α : Type} (rows : List (Int × α)) :
    List (Int × List α) :=
  rows.foldl (fun d r => setdefault_append d r.1 r.2) []

/-- The cluster-construction loops of `_get_clusters_peaks`
(fsl_exporter.py lines 986-1036), at the level of the peak lookup: for
each cluster row (represented by its cluster-id column value) the
source reads `peaks[cluster_id]` — a missing key is a fatal Python
`KeyError`, modelled by `Except.error`; otherwise the cluster record
(cluster id paired with its peak list) is emitted. -/
def build_clusters {α : Type} (peaks : List (Int × List α)) :
    List Int → Except String (List (Int × List α))
  | [] => Except.ok []
  | cid :: rest =>
      match dict_lookup peaks cid with
      | none => Except.error "KeyError"
      | some ps => (build_clusters peaks rest).map
          (fun cls => (cid, ps) :: cls)

/-- The design-type classification of `_get_design_matrix`. -/
inductive DesignType where
  | eventRelated
  | blockBased
  | mixed
deriving DecidableEq

/-- The design-type classification of `_get_design_matrix`
(fsl_exporter.py lines 480-492): `durations` is the concatenation of
the duration columns (column 2) of all onset files; the source keeps a
running maximum initialised to 0 and a running minimum initialised to
36000 over the per-file `np.amax`/`np.amin` of that column, which for
nonempty files equals folding `max`/`min` over the concatenation; then
`max_duration <= 1` gives an event-related design, otherwise
`min_duration > 1` gives a block-based design, otherwise mixed. -/
def classify_design (durations : List ℚ) : DesignType :=
  let max_duration := durations.foldl (fun m d => max m d) 0
  let min_duration := durations.foldl (fun m d => min m d) 36000
  if max_duration ≤ 1 then DesignType.eventRelated
  else if min_duration > 1 then DesignType.blockBased
  else DesignType.mixed

/-! ## Helper lemmas -/

/-- Python's `==` between a `str` and an `int` is always `False`. -/
theorem py_eq_str_int (s : String) (n : Int) :
    py_eq (PyVal.pystr s) (PyVal.pyint n) = false := rfl

/-- The pe-id selection loop returns the empty list whatever the
weights, the start index and the parameter-estimate maps, because the
`str`-vs-`int` comparison never succeeds. -/
theorem pe_ids_loop_eq_nil (pes : List ParameterEstimateMap) :
    ∀ (ws : List Int) (i : Int), pe_ids_loop pes ws i = [] := by
  intro ws
  induction ws with
  | nil => intro i; rfl
  | cons w ws ih => intro i; simp [pe_ids_loop, py_eq_str_int, ih]

/-- The peak-index loop, once `peakIndex` holds the successor of the
previous row's index, computes the spec-side positional indexing. -/
theorem peak_index_loop_eq_spec :
    ∀ (rest : List Int) (prev : Int) (k : Nat),
      peak_index_loop rest prev (some (k + 1)) =
        some (spec_index_go rest prev k) := by
  intro rest
  induction rest with
  | nil => intro prev k; rfl
  | cons cid rest ih =>
      intro prev k
      by_cases h : cid = prev
      · simp [peak_index_loop, spec_index_go, h, ih]
      · simp [peak_index_loop, spec_index_go, h, ih]

/-- When the first cluster id differs from the initial `-1` tracker,
the source peak indexing is defined and equals the spec-side one. -/
theorem assign_peak_indices_cons (hd : Int) (rest : List Int)
    (h : hd ≠ -1) :
    assign_peak_indices (hd :: rest) =
      some (spec_peak_indices (hd :: rest)) := by
  unfold assign_peak_indices peak_index_loop
  rw [if_pos h]
  show (match peak_index_loop rest hd (some (1 + 1)) with
        | none => none
        | some out => some (1 :: out)) =
      some (spec_peak_indices (hd :: rest))
  rw [peak_index_loop_eq_spec rest hd 1]
  rfl

/-- A fold of the `con_id` search loop over contrasts none of which
matches `stat_num` leaves the accumulator unchanged. -/
theorem find_con_id_foldl_const (sn : String) :
    ∀ (cs : List (String × Nat)) (acc : Option Nat),
      (∀ c ∈ cs, c.1 ≠ sn) →
      cs.foldl (fun con_id c => if c.1 == sn then some c.2 else con_id)
        acc = acc := by
  intro cs
  induction cs with
  | nil => intro acc _; rfl
  | cons c cs ih =>
      intro acc h
      have hc : (c.1 == sn) = false := by
        simp [h c (List.mem_cons_self c cs)]
      simp only [List.foldl_cons, hc, Bool.false_eq_true, if_false]
      exact ih acc (fun d hd => h d (List.mem_cons_of_mem c hd))

/-- `setdefault_append` preserves the invariant that every stored value
list is nonempty. -/
theorem setdefault_append_values_ne_nil {κ α : Type} [BEq κ]
    (d : List (κ × List α)) (key : κ) (v : α)
    (h : ∀ kv ∈ d, kv.2 ≠ []) :
    ∀ kv ∈ setdefault_append d key v, kv.2 ≠ [] := by
  intro kv hkv
  unfold setdefault_append at hkv
  split at hkv
  · obtain ⟨kv0, hkv0, heq⟩ := List.mem_map.mp hkv
    by_cases hk : (kv0.1 == key) = true
    · rw [if_pos hk] at heq
      subst heq
      simp
    · rw [if_neg hk] at heq
      subst heq
      exact h kv0 hkv0
  · rcases List.mem_append.mp hkv with hmem | hmem
    · exact h kv hmem
    · rw [List.mem_singleton.mp hmem]
      simp

/-- Folding peak rows into the grouping dict preserves nonemptiness of
every stored peak list. -/
theorem foldl_group_values_ne_nil {α : Type} :
    ∀ (rows : List (Int × α)) (d : List (Int × List α)),
      (∀ kv ∈ d, kv.2 ≠ []) →
      ∀ kv ∈ rows.foldl (fun d r => setdefault_append d r.1 r.2) d,
        kv.2 ≠ [] := by
  intro rows
  induction rows with
  | nil => intro d h; exact h
  | cons r rows ih =>
      intro d h
      exact ih (setdefault_append d r.1 r.2)
        (setdefault_append_values_ne_nil d r.1 r.2 h)

/-- Every peak list stored in the grouping built by the peak loops of
`_get_clusters_peaks` is nonempty. -/
theorem group_peaks_values_ne_nil {α : Type} (rows : List (Int × α)) :
    ∀ kv ∈ group_peaks rows, kv.2 ≠ [] :=
  foldl_group_values_ne_nil rows [] (by intro kv hkv; cases hkv)

/-- A successful dict lookup returns a value stored in the dict. -/
theorem dict_lookup_mem {κ α : Type} [BEq κ]
    (d : List (κ × List α)) (key : κ) (ps : List α)
    (h : dict_lookup d key = some ps) : ∃ kv ∈ d, kv.2 = ps := by
  unfold dict_lookup at h
  obtain ⟨kv, hfind, hsnd⟩ := Option.map_eq_some'.mp h
  exact ⟨kv, List.mem_of_find?_eq_some hfind, hsnd⟩

/-- If every peak list in `peaks` is nonempty, every cluster record
returned by a successful merge carries a nonempty peak list. -/
theorem build_clusters_ok_values {α : Type}
    (peaks : List (Int × List α))
    (hne : ∀ kv ∈ peaks, kv.2 ≠ []) :
    ∀ (cids : List Int) (out : List (Int × List α)),
      build_clusters peaks cids = Except.ok out →
      ∀ c ∈ out, c.2 ≠ [] := by
  intro cids
  induction cids with
  | nil =>
      intro out hok c hc
      simp only [build_clusters] at hok
      cases hok
      cases hc
  | cons cid rest ih =>
      intro out hok c hc
      simp only [build_clusters] at hok
      cases hlk : dict_lookup peaks cid with
      | none => rw [hlk] at hok; cases hok
      | some ps =>
          rw [hlk] at hok
          cases hrec : build_clusters peaks rest with
          | error e => rw [hrec] at hok; cases hok
          | ok cls =>
              rw [hrec] at hok
              cases hok
              rcases List.mem_cons.mp hc with hc1 | hc2
              · subst hc1
                obtain ⟨kv, hkv, hval⟩ := dict_lookup_mem peaks cid ps hlk
                rw [← hval]
                exact hne kv hkv
              · exact ih cls hrec c hc2

/-- A cluster id present in the cluster rows but absent from the peak
dict makes the whole merge fail with the `KeyError`. -/
theorem build_clusters_missing_key {α : Type}
    (peaks : List (Int × List α)) :
    ∀ (cids : List Int) (cid : Int),
      cid ∈ cids → dict_lookup peaks cid = none →
      build_clusters peaks cids = Except.error "KeyError" := by
  intro cids
  induction cids with
  | nil => intro cid hmem; cases hmem
  | cons hd rest ih =>
      intro cid hmem hlk
      rcases List.mem_cons.mp hmem with hc1 | hc2
      · subst hc1
        simp only [build_clusters, hlk]
      · simp only [build_clusters]
        cases hhd : dict_lookup peaks hd with
        | none => rfl
        | some ps => rw [ih cid hc2 hlk]; rfl

/-- Folding `max` over a list is bounded by `c` exactly when the seed
and every element are. -/
theorem foldl_max_le_iff :
    ∀ (ds : List ℚ) (a c : ℚ),
      ds.foldl (fun m d => max m d) a ≤ c ↔ a ≤ c ∧ ∀ d ∈ ds, d ≤ c := by
  intro ds
  induction ds with
  | nil => intro a c; simp
  | cons x ds ih =>
      intro a c
      simp only [List.foldl_cons, ih, max_le_iff, List.mem_cons,
        forall_eq_or_imp]
      tauto

/-- `c` is strictly below a fold of `min` exactly when it is strictly
below the seed and every element. -/
theorem lt_foldl_min_iff :
    ∀ (ds : List ℚ) (a c : ℚ),
      c < ds.foldl (fun m d => min m d) a ↔ c < a ∧ ∀ d ∈ ds, c < d := by
  intro ds
  induction ds with
  | nil => intro a c; simp
  | cons x ds ih =>
      intro a c
      simp only [List.foldl_cons, ih, lt_min_iff, List.mem_cons,
        forall_eq_or_imp]
      tauto

/-- All durations at most 1 yields the event-related design type. -/
theorem classify_design_event (ds : List ℚ) (h : ∀ d ∈ ds, d ≤ 1) :
    classify_design ds = DesignType.eventRelated := by
  simp only [classify_design]
  rw [if_pos]
  exact (foldl_max_le_iff ds 0 1).mpr ⟨by norm_num, h⟩

/-- A nonempty duration list with all durations above 1 yields the
block-based design type. -/
theorem classify_design_block (ds : List ℚ) (hne : ds ≠ [])
    (h : ∀ d ∈ ds, 1 < d) :
    classify_design ds = DesignType.blockBased := by
  simp only [classify_design]
  obtain ⟨d0, hd0⟩ := List.exists_mem_of_ne_nil ds hne
  rw [if_neg, if_pos]
  · exact (lt_foldl_min_iff ds 36000 1).mpr ⟨by norm_num, h⟩
  · intro hle
    exact absurd (((foldl_max_le_iff ds 0 1).mp hle).2 d0 hd0)
      (not_le_of_lt (h d0 hd0))

/-- A mixture of durations at most 1 and above 1 yields the mixed
design type. -/
theorem classify_design_mixed (ds : List ℚ)
    (h1 : ∃ d ∈ ds, d ≤ 1) (h2 : ∃ d ∈ ds, 1 < d) :
    classify_design ds = DesignType.mixed := by
  simp only [classify_design]
  obtain ⟨dLow, hLowMem, hLow⟩ := h1
  obtain ⟨dHigh, hHighMem, hHigh⟩ := h2
  rw [if_neg, if_neg]
  · intro hlt
    exact absurd hLow
      (not_le_of_lt (((lt_foldl_min_iff ds 36000 1).mp hlt).2 dLow hLowMem))
  · intro hle
    exact absurd (((foldl_max_le_iff ds 0 1).mp hle).2 dHigh hHighMem)
      (not_le_of_lt hHigh)

/-! ## Claim theorems -/

/-- C1: the pe-id selection of `_find_contrasts` does NOT attach the
identifiers of the parameter-estimate maps at weight-1 positions — the
source compares the `str` `pe_num` against the `int` `pe_index`, which
is always `False` in Python, so `pe_ids` is the empty tuple for every
weight vector; in particular weights `[1, -1, 2, 0]` over maps
`pe1..pe4` yield no ids, whereas the claimed selection rule (embedded
as `spec_pe_ids`, from the spec's words) yields the id of the map at
position 1. -/
theorem C1_pe_id_selection_empty :
    find_pe_ids [1, -1, 2, 0] pes_example = [] ∧
    spec_pe_ids [1, -1, 2, 0] pes_example = [101] ∧
    ∀ (weights : List Int) (pes : List ParameterEstimateMap),
      find_pe_ids weights pes = [] :=
  ⟨by decide, by decide,
   fun weights pes => pe_ids_loop_eq_nil pes weights 1⟩

/-- C2: for threshold-type code 0 (and any code outside {1,2,3}) the
source raises no unsupported-configuration error: the branch selection
of `_find_inferences` silently falls through to the final `else`,
populating the statistic threshold and the extent probability and
producing a record (with the cluster list and the peak/cluster criteria
absent, since `cluster_thresh` is false). -/
theorem C2_thresh_type_zero_silent (p z : ℚ) :
    build_thresholding 0 p z =
      { height := ⟨some z, none, none⟩
        extent_p_corr := some p
        clusters_present := false
        peak_criteria_present := false
        clus_criteria_present := false } := rfl

/-- C3: for threshold-type codes 1, 2 and 3 the assembled thresholding
fields are one-hot in the code: code 1 populates only the uncorrected
probability threshold, code 2 only the corrected probability threshold
(in both cases the statistic threshold, the extent probability and the
cluster list and peak/cluster criteria are all absent), and code 3
populates the statistic threshold and the extent probability and makes
the cluster list and the peak/cluster criteria present. -/
theorem C3_threshold_one_hot (p z : ℚ) :
    build_thresholding 1 p z =
      { height := ⟨none, none, some p⟩
        extent_p_corr := none
        clusters_present := false
        peak_criteria_present := false
        clus_criteria_present := false } ∧
    build_thresholding 2 p z =
      { height := ⟨none, some p, none⟩
        extent_p_corr := none
        clusters_present := false
        peak_criteria_present := false
        clus_criteria_present := false } ∧
    build_thresholding 3 p z =
      { height := ⟨some z, none, none⟩
        extent_p_corr := some p
        clusters_present := true
        peak_criteria_present := true
        clus_criteria_present := true } :=
  ⟨rfl, rfl, rfl⟩

/-- C4: the peak index assigned by `_get_clusters_peaks` is positional
within its cluster: whenever the loop is defined (first cluster id not
equal to the `-1` tracker initial), the assigned indices equal the
spec-side positional indexing that resets to 1 at each cluster-id
change and increments by 1 otherwise; cluster ids `[1, 1, 2, 2, 2]`
receive peak indices `[1, 2, 1, 2, 3]`. -/
theorem C4_peak_index_positional :
    assign_peak_indices [1, 1, 2, 2, 2] = some [1, 2, 1, 2, 3] ∧
    ∀ (hd : Int) (rest : List Int), hd ≠ -1 →
      assign_peak_indices (hd :: rest) =
        some (spec_peak_indices (hd :: rest)) :=
  ⟨by decide, assign_peak_indices_cons⟩

/-- Witness for C4 at the concrete cluster-id column
`[1, 1, 2, 2, 2]`. -/
theorem C4_peak_index_positional_witness :
    ((1 : Int) ≠ -1) ∧
    assign_peak_indices [1, 1, 2, 2, 2] =
      some (spec_peak_indices [1, 1, 2, 2, 2]) :=
  ⟨by decide, C4_peak_index_positional.2 1 [1, 2, 2, 2] (by decide)⟩

/-- C5: `_find_contrasts` does NOT retain records from earlier analysis
units: `contrasts = dict()` is re-initialised inside the nested loop
over the analysis directories, so with two units, each contributing one
excursion set, the returned mapping holds only the last unit's record —
the record of the first unit, which the claim requires to be present,
is absent. -/
theorem C5_earlier_units_discarded :
    find_contrasts [unit_a, unit_b] = some [((2, [22]), [202])] ∧
    ((1, [11]), [101]) ∉ [((2, [22]), [202])] :=
  ⟨by decide, by decide⟩

/-- C6: when no known contrast's derived contrast number (from its
`cope<N>.nii.gz` file name) equals the excursion set's embedded
contrast number, `con_id` stays `None` and the
`assert con_id is not None` of `_find_inferences` fails: the result is
a fatal `AssertionError` and no inference record is produced. -/
theorem C6_unmatched_contrast_fatal :
    ∀ (contrasts : List (String × Nat)) (stat_num : String),
      (∀ c ∈ contrasts, c.1 ≠ stat_num) →
      resolve_con_id contrasts stat_num =
        Except.error "AssertionError" := by
  intro cs sn h
  unfold resolve_con_id find_con_id
  rw [find_con_id_foldl_const sn cs none h]

/-- Witness for C6: contrasts numbered "1" and "3", excursion set
numbered "2". -/
theorem C6_unmatched_contrast_fatal_witness :
    (∀ c ∈ [("1", 5), ("3", 7)], c.1 ≠ "2") ∧
    resolve_con_id [("1", 5), ("3", 7)] "2" =
      Except.error "AssertionError" :=
  ⟨by decide, C6_unmatched_contrast_fatal [("1", 5), ("3", 7)] "2"
    (by decide)⟩

/-- C7: a cluster row whose cluster id is absent from the peak grouping
makes the merge of `_get_clusters_peaks` fail with the fatal
`KeyError`, and every cluster record of a successful merge carries a
nonempty peak list (the grouping only ever stores nonempty lists). -/
theorem C7_missing_cluster_id_fatal :
    (∀ (rows : List (Int × Nat)) (cids : List Int) (cid : Int),
        cid ∈ cids → dict_lookup (group_peaks rows) cid = none →
        build_clusters (group_peaks rows) cids =
          Except.error "KeyError") ∧
    (∀ (rows : List (Int × Nat)) (cids : List Int)
        (out : List (Int × List Nat)),
        build_clusters (group_peaks rows) cids = Except.ok out →
        ∀ c ∈ out, c.2 ≠ []) :=
  ⟨fun rows cids cid hmem hlk =>
      build_clusters_missing_key (group_peaks rows) cids cid hmem hlk,
   fun rows cids out hok =>
      build_clusters_ok_values (group_peaks rows)
        (group_peaks_values_ne_nil rows) cids out hok⟩

/-- Witness for C7: one peak row in cluster 1, one cluster row with
id 2. -/
theorem C7_missing_cluster_id_fatal_witness :
    ((2 : Int) ∈ [(2 : Int)] ∧
      dict_lookup (group_peaks [((1 : Int), (10 : Nat))]) 2 = none) ∧
    build_clusters (group_peaks [((1 : Int), (10 : Nat))]) [2] =
      Except.error "KeyError" ∧
    (∀ c ∈ [((1 : Int), [(10 : Nat)])], c.2 ≠ []) :=
  ⟨⟨by decide, rfl⟩,
   C7_missing_cluster_id_fatal.1 [((1 : Int), (10 : Nat))] [2] 2
     (by decide) rfl,
   C7_missing_cluster_id_fatal.2 [((1 : Int), (10 : Nat))] [1]
     [((1 : Int), [(10 : Nat)])] rfl⟩

/-- C8: `_search_in_fsf` returns the captured string when the pattern
matched; on no match it raises the unrecoverable `AttributeError` when
tolerant lookup was not requested and returns the explicit absent
marker `None` when the caller opted into tolerant lookup. -/
theorem C8_search_in_fsf_contract (s : String) (b : Bool) :
    search_in_fsf (some s) b = Except.ok (some s) ∧
    search_in_fsf none false = Except.error "AttributeError" ∧
    search_in_fsf none true = Except.ok none := by
  refine ⟨?_, rfl, rfl⟩
  cases b <;> rfl

/-- C9: the design type is classified from the onset-duration
statistics of `_get_design_matrix`: durations `[1/2, 4/5, 1]` yield an
event-related design and `[4, 4, 6]` a block-based one; in general all
durations at most 1 yield event-related, a nonempty list of durations
all above 1 yields block-based, and a mixture yields mixed. -/
theorem C9_design_type_classification :
    classify_design [1/2, 4/5, 1] = DesignType.eventRelated ∧
    classify_design [4, 4, 6] = DesignType.blockBased ∧
    (∀ ds : List ℚ, (∀ d ∈ ds, d ≤ 1) →
      classify_design ds = DesignType.eventRelated) ∧
    (∀ ds : List ℚ, ds ≠ [] → (∀ d ∈ ds, 1 < d) →
      classify_design ds = DesignType.blockBased) ∧
    (∀ ds : List ℚ, (∃ d ∈ ds, d ≤ 1) → (∃ d ∈ ds, 1 < d) →
      classify_design ds = DesignType.mixed) := by
  refine ⟨classify_design_event _ ?_, classify_design_block _ ?_ ?_,
    classify_design_event, classify_design_block, classify_design_mixed⟩
  · intro d hd
    fin_cases hd <;> norm_num
  · simp
  · intro d hd
    fin_cases hd <;> norm_num

/-- Witness for C9 at the concrete duration list `[4, 4, 6]`. -/
theorem C9_design_type_classification_witness :
    (([(4 : ℚ), 4, 6] ≠ []) ∧ (∀ d ∈ [(4 : ℚ), 4, 6], 1 < d)) ∧
    classify_design [(4 : ℚ), 4, 6] = DesignType.blockBased :=
  ⟨⟨by decide, by decide⟩,
   C9_design_type_classification.2.2.2.1 [(4 : ℚ), 4, 6]
     (by decide) (by decide)⟩

/-- C10: peak-index assignment is only defined when the first peak
row's cluster id differs from the `-1` the previous-cluster tracker is
initialised to: for a nonempty cluster-id column the loop succeeds
exactly when the first id is not `-1`; a first id of `-1` skips the
index-reset branch, `peakIndex` is read unassigned, and the loop fails
before any peak record is built. -/
theorem C10_first_cluster_id_minus_one :
    ∀ (hd : Int) (rest : List Int),
      (assign_peak_indices (hd :: rest)).isSome = !(hd == -1) := by
  intro hd rest
  by_cases h : hd = -1
  · subst h
    simp [assign_peak_indices, peak_index_loop]
  · rw [assign_peak_indices_cons hd rest h]
    simp [h]

end FslNidm
